import Mathlib

/-!
Shallow embedding of the notification rendering pipeline of
`ryochin/nagios-notify` (`src/main.rs`), together with proofs of the
spec's claims about it.

External crates (chrono, tera, lettre, hostname) are modelled at their
documented interfaces: the parts of their behaviour the program depends
on are embedded as explicit Lean functions or as oracle parameters, as
noted in each doc comment.
-/

namespace NagiosNotify

/-- `enum EventType { Host, Service }` from `main.rs`. -/
inductive EventType where
  | Host
  | Service
deriving DecidableEq, Repr

/-- `enum NotificationType { Problem, Recovery }` from `main.rs`. -/
inductive NotificationType where
  | Problem
  | Recovery
deriving DecidableEq, Repr

/-- `enum Status { Ok, Warning, Critical, Unknown, Unreachable }` from `main.rs`. -/
inductive Status where
  | Ok
  | Warning
  | Critical
  | Unknown
  | Unreachable
deriving DecidableEq, Repr

/-- The strum `Display` impl of `NotificationType` (`#[strum(serialize = ...)]`). -/
def NotificationType.display : NotificationType → String
  | .Problem => "PROBLEM"
  | .Recovery => "RECOVERY"

/-- The strum `Display` impl of `Status` (`#[strum(serialize = ...)]`). -/
def Status.display : Status → String
  | .Ok => "OK"
  | .Warning => "WARNING"
  | .Critical => "CRITICAL"
  | .Unknown => "UNKNOWN"
  | .Unreachable => "UNREACHABLE"

/-- `struct Args` from `main.rs`: the decoded command-line event record.
`r#type` is rendered as `type`. -/
structure Args where
  verbose : Bool
  host : String
  addresses : String
  host_address : Option String
  type : EventType
  datetime : String
  notification_type : NotificationType
  service : Option String
  status : Option Status
  output : Option String
deriving DecidableEq, Repr

/-- `struct Smtp` from `main.rs`. -/
structure Smtp where
  host : String
  user_name : String
  password : String
  «from» : String
deriving DecidableEq, Repr

/-- `struct Config` from `main.rs`. -/
structure Config where
  smtp : Smtp
deriving DecidableEq, Repr

/-- The per-run ambient state of the process: the result of
`hostname::get()` as read by `monitor()` (outer `Option`: `Err` of the OS
call is `none`) and of `OsString::into_string` on it (inner `Option`:
non-UTF-8 is `none`), plus the crate's `CARGO_PKG_VERSION` (a compile-time
constant of the build; `Cargo.toml` is not among the given sources). -/
structure RunState where
  hostname : Option (Option String)
  pkg_version : String
deriving DecidableEq, Repr

/-- `fn monitor() -> String` from `main.rs`:
`hostname::get().map_or(default, |s| s.into_string().unwrap_or(default))`
with `default = "localhost"`. -/
def monitor (st : RunState) : String :=
  match st.hostname with
  | none => "localhost"
  | some none => "localhost"
  | some (some s) => s

/-- `fn is_host(args: &Args) -> bool` from `main.rs`. -/
def is_host (args : Args) : Bool :=
  args.type == EventType.Host

/-- `fn host_status(args: &Args) -> &str` from `main.rs`: exhaustive match
on `args.notification_type`, no default branch. -/
def host_status (args : Args) : String :=
  match args.notification_type with
  | .Problem => "DOWN"
  | .Recovery => "UP"

/-- `fn subject(args: &Args) -> String` from `main.rs`. The `{}` fields of
the two `format!` calls are spelled out as string appends; enum fields are
displayed through their strum `Display` impls; `monitor()` reads the
per-run state. -/
def subject (st : RunState) (args : Args) : String :=
  if is_host args then
    "[" ++ args.notification_type.display ++ "] " ++ host_status args ++ ": "
      ++ args.host ++ "    by " ++ monitor st
  else
    "[" ++ args.notification_type.display ++ "] "
      ++ ((args.status.getD Status.Unknown).display) ++ ": "
      ++ args.host ++ "/" ++ (args.service.getD "?") ++ "    by " ++ monitor st

/-- `fn status_description(args: &Args) -> Option<&str>` from `main.rs`. -/
def status_description (args : Args) : Option String :=
  if is_host args then
    args.status.map fun s =>
      match s with
      | .Ok => "回復"
      | .Warning => "警告"
      | .Critical => "ダウン"
      | .Unknown => "不明"
      | .Unreachable => "到達不能（経路障害の可能性）"
  else
    args.status.map fun s =>
      match s with
      | .Ok => "回復"
      | .Warning => "警告"
      | .Critical => "致命的"
      | .Unknown => "不明"
      | .Unreachable => "到達不能（経路障害の可能性）"

/-- The date/time fields that `chrono::NaiveDateTime` carries after a
successful `parse_from_str` with format `"%a %b %d %H:%M:%S %Z %Y"`
(the `%Z` zone name is skipped by chrono and carries no data). -/
structure ParsedDatetime where
  year : Nat
  month : Nat
  day : Nat
  hour : Nat
  minute : Nat
  second : Nat
deriving DecidableEq, Repr

/-- chrono `Item::Space`: consumes zero or more whitespace characters. -/
def skipSpaces : List Char → List Char
  | [] => []
  | c :: cs => if c.isWhitespace then skipSpaces cs else c :: cs

/-- chrono `%Z` during parsing: skips all (zero or more) non-whitespace
characters; it contributes no fields to the parse result. -/
def skipNonSpace : List Char → List Char
  | [] => []
  | c :: cs => if c.isWhitespace then c :: cs else skipNonSpace cs

/-- Take exactly three characters (for the `%a` / `%b` three-letter names). -/
def take3 : List Char → Option (List Char × List Char)
  | a :: b :: c :: rest => some ([a, b, c], rest)
  | _ => none

/-- chrono short weekday names, matched case-insensitively; `0` = Sunday. -/
def weekdayIndex (s : String) : Option Nat :=
  if s = "sun" then some 0
  else if s = "mon" then some 1
  else if s = "tue" then some 2
  else if s = "wed" then some 3
  else if s = "thu" then some 4
  else if s = "fri" then some 5
  else if s = "sat" then some 6
  else none

/-- chrono short month names, matched case-insensitively; `1` = January. -/
def monthIndex (s : String) : Option Nat :=
  if s = "jan" then some 1
  else if s = "feb" then some 2
  else if s = "mar" then some 3
  else if s = "apr" then some 4
  else if s = "may" then some 5
  else if s = "jun" then some 6
  else if s = "jul" then some 7
  else if s = "aug" then some 8
  else if s = "sep" then some 9
  else if s = "oct" then some 10
  else if s = "nov" then some 11
  else if s = "dec" then some 12
  else none

/-- Take up to `max` leading decimal digits. -/
def takeDigits : Nat → List Char → List Char × List Char
  | 0, cs => ([], cs)
  | _ + 1, [] => ([], [])
  | n + 1, c :: cs =>
    if c.isDigit then
      let (ds, rest) := takeDigits n cs
      (c :: ds, rest)
    else ([], c :: cs)

/-- Decimal value of a digit list. -/
def natOfDigits (ds : List Char) : Nat :=
  ds.foldl (fun acc c => acc * 10 + (c.toNat - 48)) 0

/-- chrono numeric item with maximum width `maxDigits`: at least one digit
must be present. -/
def parseNum (maxDigits : Nat) (cs : List Char) : Option (Nat × List Char) :=
  let (ds, rest) := takeDigits maxDigits cs
  if ds.isEmpty then none else some (natOfDigits ds, rest)

/-- A literal character of the format string must match exactly. -/
def expectChar (c : Char) : List Char → Option (List Char)
  | [] => none
  | x :: xs => if x = c then some xs else none

/-- Gregorian leap-year rule, as used by chrono's calendar validation. -/
def isLeapYear (y : Nat) : Bool :=
  y % 4 = 0 && (y % 100 ≠ 0 || y % 400 = 0)

/-- Days in a month of the proleptic Gregorian calendar. -/
def daysInMonth (y m : Nat) : Nat :=
  match m with
  | 1 => 31
  | 2 => if isLeapYear y then 29 else 28
  | 3 => 31
  | 4 => 30
  | 5 => 31
  | 6 => 30
  | 7 => 31
  | 8 => 31
  | 9 => 30
  | 10 => 31
  | 11 => 30
  | 12 => 31
  | _ => 0

/-- Day of week of a Gregorian date by Zeller's congruence; `0` = Sunday.
chrono checks the `%a` field for consistency with the parsed date. -/
def dayOfWeekSun0 (y m d : Nat) : Nat :=
  let yy := if m < 3 then y - 1 else y
  let mm := if m < 3 then m + 12 else m
  let K := yy % 100
  let J := yy / 100
  let h := (d + 13 * (mm + 1) / 5 + K + K / 4 + J / 4 + 5 * J) % 7
  (h + 6) % 7

/-- Modelled interface of `chrono::NaiveDateTime::parse_from_str` with the
source's fixed format `"%a %b %d %H:%M:%S %Z %Y"`: three-letter weekday,
space, three-letter month, space, day, space, `HH:MM:SS`, space, zone name
(skipped), space, year; the whole input must be consumed; fields are range
checked and the weekday must agree with the date. -/
def parse_datetime (s : String) : Option ParsedDatetime := do
  let (w3, cs) ← take3 s.toList
  let wd ← weekdayIndex (String.mk (w3.map Char.toLower))
  let cs := skipSpaces cs
  let (m3, cs) ← take3 cs
  let month ← monthIndex (String.mk (m3.map Char.toLower))
  let cs := skipSpaces cs
  let (day, cs) ← parseNum 2 cs
  let cs := skipSpaces cs
  let (hour, cs) ← parseNum 2 cs
  let cs ← expectChar ':' cs
  let (minute, cs) ← parseNum 2 cs
  let cs ← expectChar ':' cs
  let (second, cs) ← parseNum 2 cs
  let cs := skipSpaces cs
  let cs := skipNonSpace cs
  let cs := skipSpaces cs
  let (year, cs) ← parseNum 4 cs
  if !cs.isEmpty then none
  else if month < 1 ∨ 12 < month then none
  else if day < 1 ∨ daysInMonth year month < day then none
  else if 23 < hour then none
  else if 59 < minute then none
  else if 60 < second then none
  else if dayOfWeekSun0 year month day ≠ wd then none
  else some ⟨year, month, day, hour, minute, second⟩

/-- Zero-pad to two digits, as chrono's `%m`, `%d`, `%H`, `%M` do. -/
def pad2 (n : Nat) : String :=
  if n < 10 then "0" ++ toString n else toString n

/-- The output side of `fn datetime`: chrono formatting with the source's
fixed pattern `"%m月%d日 %H時%M分"`. -/
def format_datetime (dt : ParsedDatetime) : String :=
  pad2 dt.month ++ "月" ++ pad2 dt.day ++ "日 " ++ pad2 dt.hour ++ "時"
    ++ pad2 dt.minute ++ "分"

/-- `fn datetime(args: &Args) -> String` from `main.rs`:
`parse_from_str(..).ok().map(|d| d.format(..).to_string()).unwrap_or_else(|| "不明")`. -/
def datetime (args : Args) : String :=
  match parse_datetime args.datetime with
  | some dt => format_datetime dt
  | none => "不明"

/-- `fn title_type_name(args: &Args) -> &str` from `main.rs`. -/
def title_type_name (args : Args) : String :=
  if is_host args then "ホスト" else "サービス"

/-- `fn title_status_description(args: &Args) -> &str` from `main.rs`. -/
def title_status_description (args : Args) : String :=
  if args.notification_type == NotificationType.Recovery then
    "が正常状態に復帰"
  else
    "に問題が発生"

/-- `fn title(args: &Args) -> String` from `main.rs`: the guard mirrors the
source's `if args.notification_type == Problem || == Recovery` with its
(unreachable) else branch. -/
def title (args : Args) : String :=
  if args.notification_type == NotificationType.Problem
      || args.notification_type == NotificationType.Recovery then
    title_type_name args ++ title_status_description args
  else
    "何らかの問題が発生（詳細不明）"

/-- An item of the Tera template: literal text or a `{{ key }}` variable
reference (a minimal model of the single external `template.txt`). -/
inductive TemplateItem where
  | lit (s : String)
  | var (key : String)
deriving DecidableEq, Repr

/-- A Tera template as a sequence of items. -/
abbrev Template := List TemplateItem

/-- The render context built by `fn create_body` in `main.rs`: the six
`context.insert` calls (`args`, `title`, `datetime`, `monitor`,
`host_address`, `status_description`). -/
structure RenderContext where
  args : Args
  title : String
  datetime : String
  monitor : String
  host_address : String
  status_description : Option String
deriving DecidableEq, Repr

/-- The context-population part of `fn create_body(args: &Args)` in
`main.rs`: `host_address` defaults to `"?"` and the remaining values come
from the phrase-resolver functions. -/
def build_context (st : RunState) (args : Args) : RenderContext :=
  { args := args
  , title := title args
  , datetime := datetime args
  , monitor := monitor st
  , host_address := args.host_address.getD "?"
  , status_description := status_description args }

/-- Modelled interface of Tera variable lookup over the inserted context
keys; an absent `Option` value (serialized as null) renders as empty text,
and the scalar fields of the serialized `args` value are addressable. -/
def context_lookup (ctx : RenderContext) (k : String) : String :=
  if k = "title" then ctx.title
  else if k = "datetime" then ctx.datetime
  else if k = "monitor" then ctx.monitor
  else if k = "host_address" then ctx.host_address
  else if k = "status_description" then ctx.status_description.getD ""
  else if k = "args.host" then ctx.args.host
  else if k = "args.addresses" then ctx.args.addresses
  else if k = "args.datetime" then ctx.args.datetime
  else if k = "args.service" then ctx.args.service.getD ""
  else if k = "args.output" then ctx.args.output.getD ""
  else ""

/-- Modelled interface of `tera.render`: deterministic substitution of the
template items against the context. -/
def render (tpl : Template) (ctx : RenderContext) : String :=
  tpl.foldl
    (fun acc item =>
      acc ++ match item with
             | .lit s => s
             | .var k => context_lookup ctx k)
    ""

/-- `fn create_body` in `main.rs`, given an already-loaded template:
build the context and render `template.txt` with it. -/
def create_body (st : RunState) (tpl : Template) (args : Args) : String :=
  render tpl (build_context st args)

/-- One full rendering pass over an event: the subject line (computed in
`send_mail` via `subject`) and the body (computed in `create_body`). -/
def render_pipeline (st : RunState) (tpl : Template) (args : Args) :
    String × String :=
  (subject st args, create_body st tpl args)

/-- A parsed mailbox, the output of lettre's mailbox grammar (optional
display name, then `user@domain`). -/
structure Mailbox where
  name : Option String
  user : String
  domain : String
deriving DecidableEq, Repr

/-- A character allowed in the bare parts of an address in this model. -/
def addrChar (c : Char) : Bool :=
  !c.isWhitespace && c ≠ ',' && c ≠ '<' && c ≠ '>' && c ≠ '@'

/-- A nonempty run of address characters. -/
def valid_addr_part (cs : List Char) : Bool :=
  !cs.isEmpty && cs.all addrChar

/-- Split a character list on a separator character; always yields at
least one (possibly empty) group. -/
def splitOnChar (sep : Char) : List Char → List (List Char)
  | [] => [[]]
  | c :: rest =>
    match splitOnChar sep rest with
    | [] => [[]]
    | g :: gs => if c = sep then [] :: g :: gs else (c :: g) :: gs

/-- Drop whitespace on both ends of a character list. -/
def trimWS (cs : List Char) : List Char :=
  ((cs.dropWhile Char.isWhitespace).reverse.dropWhile Char.isWhitespace).reverse

/-- Modelled interface of lettre's address grammar (external crate):
`user@domain` with exactly one `@` and nonempty, separator-free parts. -/
def parse_address (cs : List Char) : Option (String × String) :=
  match splitOnChar '@' cs with
  | [u, d] =>
    if valid_addr_part u && valid_addr_part d then
      some (String.mk u, String.mk d)
    else none
  | _ => none

/-- Modelled interface of lettre's single-mailbox grammar: either a bare
address or `Name <address>`, with surrounding whitespace ignored. -/
def parse_mailbox (cs : List Char) : Option Mailbox :=
  match splitOnChar '<' (trimWS cs) with
  | [addr] => (parse_address addr).map fun p => ⟨none, p.1, p.2⟩
  | [nm, rest] =>
    match rest.reverse with
    | [] => none
    | last :: body =>
      if last = '>' then
        (parse_address body.reverse).map fun p =>
          ⟨some (String.mk (trimWS nm)), p.1, p.2⟩
      else none
  | _ => none

/-- Modelled interface of `lettre::message::Mailboxes::from_str`: a
comma-separated mailbox list; every element must parse (an empty or
malformed element fails the whole list, no element is dropped). -/
def parse_mailboxes (s : String) : Option (List Mailbox) :=
  (splitOnChar ',' s.toList).mapM parse_mailbox

/-- `fn mailer_name() -> UserAgent` from `main.rs`:
`format!("Nagios Notify/{}", env!("CARGO_PKG_VERSION"))`. -/
def mailer_name (st : RunState) : String :=
  "Nagios Notify/" ++ st.pkg_version

/-- The assembled `lettre::Message` of `send_mail`: from, reply-to,
recipients, subject, fixed plain-text content type, product header, body. -/
structure EmailMsg where
  «from» : Mailbox
  reply_to : Mailbox
  «to» : List Mailbox
  subject : String
  content_type : String
  user_agent : String
  body : String
deriving DecidableEq, Repr

/-- The transport boundary of one run: whether
`SmtpTransport::relay(&config.smtp.host)` succeeds (its `Err` is
`unwrap`ped), and the outcome `mailer.send` would report for a message. -/
structure SmtpWorld where
  relay_ok : Bool
  send_ok : EmailMsg → Bool

/-- How `send_mail` ends: a panic from one of its `unwrap` calls, a
successful send (`Ok(())`), or a transport error (`Err(e)`). -/
inductive SendOutcome where
  | panicked
  | sendOk
  | sendFailed
deriving DecidableEq, Repr

/-- The observable effect of one `send_mail` call: its outcome and every
message that was handed to `mailer.send`. -/
structure SendTrace where
  outcome : SendOutcome
  transport_calls : List EmailMsg
deriving DecidableEq, Repr

/-- `fn send_mail(config, args, body)` from `main.rs`, step for step:
parse `args.addresses` (`.unwrap()` panics on failure, before any
transport work); parse `config.smtp.from` for both `from` and `reply_to`
(`.unwrap()` likewise); assemble the message with `subject(args)`, the
plain-text content type, the product header and the body (the builder
cannot fail here since from, recipients and body are all supplied);
`SmtpTransport::relay(..).unwrap()`; finally `mailer.send(&email)`. -/
def send_mail (config : Config) (st : RunState) (args : Args) (body : String)
    (w : SmtpWorld) : SendTrace :=
  match parse_mailboxes args.addresses with
  | none => ⟨.panicked, []⟩
  | some mbs =>
    match parse_mailbox config.smtp.«from».toList with
    | none => ⟨.panicked, []⟩
    | some fromMb =>
      let email : EmailMsg :=
        { «from» := fromMb
        , reply_to := fromMb
        , «to» := mbs
        , subject := subject st args
        , content_type := "text/plain; charset=utf-8"
        , user_agent := mailer_name st
        , body := body }
      if !w.relay_ok then ⟨.panicked, []⟩
      else if w.send_ok email then ⟨.sendOk, [email]⟩
      else ⟨.sendFailed, [email]⟩

/-- How the process terminates: `std::process::exit(code)` or an aborting
panic (from `.expect` / `.unwrap`; a Rust panic is not `exit(1)` — the
runtime aborts with its own nonzero status, conventionally 101). -/
inductive ExitOutcome where
  | exited (code : Nat)
  | panicked
deriving DecidableEq, Repr

/-- The external results `fn main` consumes: `load_config()` (`None` for a
missing or unparsable `config.yml`), `Tera::new("./*.txt")` (`None` for a
template parse error), whether `tera.render("template.txt", ..)` succeeds,
and the SMTP boundary. -/
structure World where
  config_load : Option Config
  template : Option Template
  render_ok : Bool
  smtp : SmtpWorld

/-- The observable effect of one `fn main` run: how it exits, whether
template loading (`Tera::new`) was reached, and every message handed to
the transport. -/
structure RunTrace where
  exit : ExitOutcome
  template_loaded : Bool
  transport_calls : List EmailMsg

/-- `fn main` from `main.rs`, step for step: `load_config().expect(..)`
panics on config failure (before `create_body`, hence before `Tera::new`);
inside `create_body`, a `Tera::new` error prints and calls `exit(1)`; a
`tera.render` error propagates to `main`'s `.expect(..)` panic; then
`send_mail`, whose `Ok` exits 0 and whose `Err` exits 1. -/
def main_model (st : RunState) (args : Args) (w : World) : RunTrace :=
  match w.config_load with
  | none => ⟨.panicked, false, []⟩
  | some config =>
    match w.template with
    | none => ⟨.exited 1, true, []⟩
    | some tpl =>
      if !w.render_ok then ⟨.panicked, true, []⟩
      else
        let body := create_body st tpl args
        let tr := send_mail config st args body w.smtp
        match tr.outcome with
        | .panicked => ⟨.panicked, true, tr.transport_calls⟩
        | .sendOk => ⟨.exited 0, true, tr.transport_calls⟩
        | .sendFailed => ⟨.exited 1, true, tr.transport_calls⟩

/-! Concrete fixtures used by the claim theorems. -/

/-- A Host/Problem event for `web01`, with the spec's example timestamp. -/
def baseArgs : Args :=
  { verbose := false
  , host := "web01"
  , addresses := "alerts@example.com"
  , host_address := none
  , type := EventType.Host
  , datetime := "Mon Jan 02 15:04:05 JST 2006"
  , notification_type := NotificationType.Problem
  , service := none
  , status := none
  , output := none }

/-- A Service/Recovery event for `nginx` on `web01` with status `Ok`. -/
def svcArgs : Args :=
  { baseArgs with
      type := EventType.Service
    , notification_type := NotificationType.Recovery
    , service := some "nginx"
    , status := some Status.Ok }

/-- A run whose hostname resolves to `mon1`. -/
def mon1State : RunState :=
  { hostname := some (some "mon1"), pkg_version := "1.0.0" }

/-- Helper: the `is_host` test holds exactly on `EventType.Host`. -/
theorem is_host_true_iff (args : Args) :
    is_host args = true ↔ args.type = EventType.Host := by
  unfold is_host
  cases h : args.type <;> simp [h]

/-- C1: for every Host event the subject line is
`[<upper notification word>] <DOWN|UP>: <host>    by <monitor>`; in
particular Host/Problem on `web01` with monitor `mon1` renders exactly
`[PROBLEM] DOWN: web01    by mon1`. -/
theorem subject_host_format :
    (∀ (st : RunState) (args : Args), args.type = EventType.Host →
        subject st args =
          "[" ++ (match args.notification_type with
                  | NotificationType.Problem => "PROBLEM"
                  | NotificationType.Recovery => "RECOVERY") ++ "] "
            ++ (match args.notification_type with
                | NotificationType.Problem => "DOWN"
                | NotificationType.Recovery => "UP") ++ ": "
            ++ args.host ++ "    by " ++ monitor st)
    ∧ subject mon1State baseArgs = "[PROBLEM] DOWN: web01    by mon1" := by
  constructor
  · intro st args h
    cases hnt : args.notification_type <;>
      simp [subject, is_host_true_iff, h, hnt, NotificationType.display,
        host_status]
  · rfl

/-- Witness for C1: the general Host-subject shape applied to the concrete
`web01` / `mon1` fixture. -/
theorem subject_host_format_witness :
    subject mon1State baseArgs =
      "[" ++ (match baseArgs.notification_type with
              | NotificationType.Problem => "PROBLEM"
              | NotificationType.Recovery => "RECOVERY") ++ "] "
        ++ (match baseArgs.notification_type with
            | NotificationType.Problem => "DOWN"
            | NotificationType.Recovery => "UP") ++ ": "
        ++ baseArgs.host ++ "    by " ++ monitor mon1State :=
  subject_host_format.1 mon1State baseArgs rfl

/-- C2: for every Service event the subject line is
`[<upper notification word>] <status word | UNKNOWN>: <host>/<service | ?>    by <monitor>`;
in particular Service/Recovery of `nginx` on `web01` with status `Ok` and
monitor `mon1` renders exactly `[RECOVERY] OK: web01/nginx    by mon1`. -/
theorem subject_service_format :
    (∀ (st : RunState) (args : Args), args.type = EventType.Service →
        subject st args =
          "[" ++ (match args.notification_type with
                  | NotificationType.Problem => "PROBLEM"
                  | NotificationType.Recovery => "RECOVERY") ++ "] "
            ++ (match args.status with
                | some s => s.display
                | none => "UNKNOWN") ++ ": "
            ++ args.host ++ "/"
            ++ (match args.service with
                | some sv => sv
                | none => "?") ++ "    by " ++ monitor st)
    ∧ subject mon1State svcArgs = "[RECOVERY] OK: web01/nginx    by mon1" := by
  constructor
  · intro st args h
    cases hnt : args.notification_type <;>
      cases hs : args.status <;>
        cases hv : args.service <;>
          simp [subject, is_host_true_iff, h, hnt, hs, hv,
            NotificationType.display, Status.display]
  · rfl

/-- Witness for C2: the general Service-subject shape applied to the
concrete `nginx` / `web01` / `mon1` fixture. -/
theorem subject_service_format_witness :
    subject mon1State svcArgs =
      "[" ++ (match svcArgs.notification_type with
              | NotificationType.Problem => "PROBLEM"
              | NotificationType.Recovery => "RECOVERY") ++ "] "
        ++ (match svcArgs.status with
            | some s => s.display
            | none => "UNKNOWN") ++ ": "
        ++ svcArgs.host ++ "/"
        ++ (match svcArgs.service with
            | some sv => sv
            | none => "?") ++ "    by " ++ monitor mon1State :=
  subject_service_format.1 mon1State svcArgs rfl

/-- C3: `status_description` yields the "fatal" word `致命的` exactly on
(Service, Critical) and the "down" word `ダウン` exactly on
(Host, Critical); any two events with the same non-Critical status get the
same word regardless of event type; and it is `none` exactly when the
status is absent. -/
theorem status_description_cases :
    (∀ args : Args, args.type = EventType.Service →
        args.status = some Status.Critical →
        status_description args = some "致命的")
    ∧ (∀ args : Args, args.type = EventType.Host →
        args.status = some Status.Critical →
        status_description args = some "ダウン")
    ∧ (∀ args : Args, status_description args = some "致命的" →
        args.type = EventType.Service ∧ args.status = some Status.Critical)
    ∧ (∀ args : Args, status_description args = some "ダウン" →
        args.type = EventType.Host ∧ args.status = some Status.Critical)
    ∧ (∀ a b : Args, a.status = b.status → a.status ≠ some Status.Critical →
        status_description a = status_description b)
    ∧ (∀ args : Args, status_description args = none ↔ args.status = none) := by
  refine ⟨?_, ?_, ?_, ?_, ?_, ?_⟩
  · intro args ht hs
    simp [status_description, is_host_true_iff, ht, hs]
  · intro args ht hs
    simp [status_description, is_host_true_iff, ht, hs]
  · intro args h
    cases ht : args.type <;> cases hs : args.status <;>
      simp [status_description, is_host_true_iff, ht, hs] at h ⊢ <;>
      rename_i s <;> cases s <;> simp_all
  · intro args h
    cases ht : args.type <;> cases hs : args.status <;>
      simp [status_description, is_host_true_iff, ht, hs] at h ⊢ <;>
      rename_i s <;> cases s <;> simp_all
  · intro a b hst hnc
    cases ht : a.type <;> cases ht' : b.type <;> cases hs : a.status <;>
      simp [status_description, is_host_true_iff, ht, ht', hs, ← hst] at hnc ⊢ <;>
      rename_i s <;> cases s <;> simp_all
  · intro args
    cases ht : args.type <;> cases hs : args.status <;>
      simp [status_description, is_host_true_iff, ht, hs]

/-- A Service/Problem event in Critical state. -/
def svcCritArgs : Args :=
  { baseArgs with type := EventType.Service, status := some Status.Critical }

/-- Witness for C3: the (Service, Critical) case evaluated on a concrete
event. -/
theorem status_description_cases_witness :
    status_description svcCritArgs = some "致命的" :=
  status_description_cases.1 svcCritArgs rfl rfl

/-- C4: the host status word is a total, exhaustive function of
`NotificationType`: every event falls in the Problem case (word `DOWN`) or
the Recovery case (word `UP`); there is no third case. -/
theorem host_status_total :
    ∀ args : Args,
      (args.notification_type = NotificationType.Problem
        ∧ host_status args = "DOWN")
      ∨ (args.notification_type = NotificationType.Recovery
        ∧ host_status args = "UP") := by
  intro args
  cases h : args.notification_type
  · exact Or.inl ⟨rfl, by simp [host_status, h]⟩
  · exact Or.inr ⟨rfl, by simp [host_status, h]⟩

/-- C5: the datetime formatter is total: every input either parses under
the fixed `"%a %b %d %H:%M:%S %Z %Y"` format and renders in the localized
`%m月%d日 %H時%M分` pattern, or yields the fixed placeholder `不明`; in
particular the spec's example string renders to `01月02日 15時04分` and the
empty string to `不明`. -/
theorem datetime_total_fallback :
    (∀ args : Args,
        (parse_datetime args.datetime = none ∧ datetime args = "不明")
        ∨ (∃ dt, parse_datetime args.datetime = some dt
            ∧ datetime args = format_datetime dt))
    ∧ datetime baseArgs = "01月02日 15時04分"
    ∧ datetime { baseArgs with datetime := "" } = "不明" := by
  refine ⟨?_, rfl, rfl⟩
  intro args
  cases h : parse_datetime args.datetime with
  | none => exact Or.inl ⟨rfl, by simp [datetime, h]⟩
  | some dt => exact Or.inr ⟨dt, rfl, by simp [datetime, h]⟩

/-- C6: the title is the concatenation of the localized subject noun
(chosen by the event type) and the tense phrase (chosen by the
notification type), and is therefore a pure function of exactly those two
fields: any two events agreeing on them get identical titles. -/
theorem title_pure_structure :
    (∀ args : Args,
        title args =
          (if args.type = EventType.Host then "ホスト" else "サービス")
          ++ (match args.notification_type with
              | NotificationType.Problem => "に問題が発生"
              | NotificationType.Recovery => "が正常状態に復帰"))
    ∧ (∀ a b : Args, a.type = b.type →
        a.notification_type = b.notification_type → title a = title b) := by
  constructor
  · intro args
    cases ht : args.type <;> cases hnt : args.notification_type <;>
      simp [title, title_type_name, title_status_description,
        is_host_true_iff, ht, hnt]
  · intro a b h1 h2
    cases ht : a.type <;> cases hnt : a.notification_type <;>
      simp [title, title_type_name, title_status_description,
        is_host_true_iff, ht, hnt, ← h1, ← h2]

/-- Witness for C6: two concrete events agreeing only on event type and
notification type (and differing in status, host, service, output,
addresses, host address and datetime) get the same title. -/
theorem title_pure_structure_witness :
    title baseArgs =
      title { verbose := true
            , host := "db9"
            , addresses := "oncall@example.org"
            , host_address := some "10.0.0.1"
            , type := EventType.Host
            , datetime := "Fri Dec 31 23:59:59 UTC 2021"
            , notification_type := NotificationType.Problem
            , service := some "disk"
            , status := some Status.Critical
            , output := some "ping timeout" } :=
  title_pure_structure.2 baseArgs _ rfl rfl

/-- C7: rendering is deterministic within a run: two evaluations of the
pipeline on the same event with the same run state are identical, the
monitor value placed in the template context equals `monitor st`, and the
subject line ends in `    by` followed by that same monitor value. -/
theorem render_deterministic :
    (∀ (st : RunState) (tpl : Template) (args : Args),
        render_pipeline st tpl args = render_pipeline st tpl args)
    ∧ (∀ (st : RunState) (args : Args),
        (build_context st args).monitor = monitor st
        ∧ ∃ p, subject st args = p ++ ("    by " ++ monitor st)) := by
  refine ⟨fun _ _ _ => rfl, fun st args => ⟨rfl, ?_⟩⟩
  by_cases h : is_host args = true
  · exact ⟨"[" ++ args.notification_type.display ++ "] " ++ host_status args
      ++ ": " ++ args.host, by simp [subject, h, String.append_assoc]⟩
  · exact ⟨"[" ++ args.notification_type.display ++ "] "
      ++ (args.status.getD Status.Unknown).display ++ ": " ++ args.host
      ++ "/" ++ (args.service.getD "?"),
      by simp [subject, h, String.append_assoc]⟩

/-- An SMTP configuration fixture. -/
def exConfig : Config :=
  ⟨⟨"smtp.example.com", "user", "pw", "nagios@example.com"⟩⟩

/-- A transport that would accept any message. -/
def exSmtpWorld : SmtpWorld :=
  { relay_ok := true, send_ok := fun _ => true }

/-- A Host/Problem event whose addresses field is not a mailbox list. -/
def badAddrArgs : Args :=
  { baseArgs with addresses := "not an address" }

/-- C8: if the addresses field does not parse as a mailbox list,
`send_mail` panics before any transport work — no message is ever handed
to the transport, whatever the transport would do; and whenever it does
parse, every message handed to the transport carries exactly the parsed
recipient list (none dropped). -/
theorem invalid_recipients_no_send :
    (∀ (config : Config) (st : RunState) (args : Args) (body : String)
        (w : SmtpWorld),
        parse_mailboxes args.addresses = none →
        send_mail config st args body w = ⟨SendOutcome.panicked, []⟩)
    ∧ (∀ (config : Config) (st : RunState) (args : Args) (body : String)
        (w : SmtpWorld) (mbs : List Mailbox),
        parse_mailboxes args.addresses = some mbs →
        ∀ e ∈ (send_mail config st args body w).transport_calls,
          e.«to» = mbs) := by
  constructor
  · intro config st args body w h
    simp [send_mail, h]
  · intro config st args body w mbs h e he
    simp only [send_mail, h] at he
    split at he
    · simp at he
    · split at he
      · simp at he
      · split at he <;> simp at he <;> subst he <;> rfl

/-- Witness for C8: a concrete unparsable addresses field makes
`send_mail` end in the panic outcome with an empty transport trace. -/
theorem invalid_recipients_no_send_witness :
    send_mail exConfig mon1State badAddrArgs "body" exSmtpWorld =
      ⟨SendOutcome.panicked, []⟩ :=
  invalid_recipients_no_send.1 exConfig mon1State badAddrArgs "body"
    exSmtpWorld rfl

/-- A world whose configuration file fails to load. -/
def noConfigWorld : World :=
  { config_load := none
  , template := some []
  , render_ok := true
  , smtp := exSmtpWorld }

/-- Counterexample to C9 as stated: on a missing/corrupt configuration
file the run does abort before the template is loaded, but through the
`.expect` panic — an abnormal termination that is not `exit(1)`. -/
theorem main_exit_one_counterexample :
    main_model mon1State baseArgs noConfigWorld =
      ⟨ExitOutcome.panicked, false, []⟩
    ∧ ExitOutcome.panicked ≠ ExitOutcome.exited 1 :=
  ⟨rfl, by decide⟩

/-- C9 (amended): exit code 0 exactly on a successful send and exit
code 1 on delivery failure and on template-load failure; config-load
failure and body-render failure instead abort through a panic (abnormal
nonzero termination, not `exit(1)`), config failure still occurring
before the template is loaded. -/
theorem main_exit_codes :
    (∀ (st : RunState) (args : Args) (w : World),
        w.config_load = none →
        main_model st args w = ⟨ExitOutcome.panicked, false, []⟩)
    ∧ (∀ (st : RunState) (args : Args) (w : World) (cfg : Config),
        w.config_load = some cfg → w.template = none →
        main_model st args w = ⟨ExitOutcome.exited 1, true, []⟩)
    ∧ (∀ (st : RunState) (args : Args) (w : World) (cfg : Config)
        (tpl : Template),
        w.config_load = some cfg → w.template = some tpl →
        w.render_ok = false →
        main_model st args w = ⟨ExitOutcome.panicked, true, []⟩)
    ∧ (∀ (st : RunState) (args : Args) (w : World) (cfg : Config)
        (tpl : Template),
        w.config_load = some cfg → w.template = some tpl →
        w.render_ok = true →
        ((send_mail cfg st args (create_body st tpl args) w.smtp).outcome
            = SendOutcome.sendOk →
          (main_model st args w).exit = ExitOutcome.exited 0)
        ∧ ((send_mail cfg st args (create_body st tpl args) w.smtp).outcome
            = SendOutcome.sendFailed →
          (main_model st args w).exit = ExitOutcome.exited 1)
        ∧ ((send_mail cfg st args (create_body st tpl args) w.smtp).outcome
            = SendOutcome.panicked →
          (main_model st args w).exit = ExitOutcome.panicked)) := by
  refine ⟨?_, ?_, ?_, ?_⟩
  · intro st args w h
    simp [main_model, h]
  · intro st args w cfg h1 h2
    simp [main_model, h1, h2]
  · intro st args w cfg tpl h1 h2 h3
    simp [main_model, h1, h2, h3]
  · intro st args w cfg tpl h1 h2 h3
    refine ⟨?_, ?_, ?_⟩ <;> intro hout <;> simp [main_model, h1, h2, h3, hout]

/-- Witness for C9 (amended): a concrete all-success world exits 0, and a
concrete config-failure world panics without loading the template. -/
theorem main_exit_codes_witness :
    (main_model mon1State baseArgs
        { config_load := some exConfig
        , template := some []
        , render_ok := true
        , smtp := exSmtpWorld }).exit = ExitOutcome.exited 0
    ∧ main_model mon1State baseArgs noConfigWorld =
        ⟨ExitOutcome.panicked, false, []⟩ :=
  ⟨(main_exit_codes.2.2.2 mon1State baseArgs _ exConfig [] rfl rfl rfl).1 rfl
  , main_exit_codes.1 mon1State baseArgs noConfigWorld rfl⟩

/-- C10: the Host-event subject never reads the status, service or output
fields: two Host events agreeing on host and notification type (under the
same run state, hence the same monitor) get identical subjects. -/
theorem subject_host_independent :
    ∀ (st : RunState) (a b : Args),
      a.type = EventType.Host → b.type = EventType.Host →
      a.host = b.host → a.notification_type = b.notification_type →
      subject st a = subject st b := by
  intro st a b ha hb hh hn
  cases hnt : a.notification_type <;>
    simp [subject, is_host_true_iff, ha, hb, host_status, ← hh, ← hn, hnt]

/-- Witness for C10: concrete Host events differing in status, service and
output get the same subject. -/
theorem subject_host_independent_witness :
    subject mon1State baseArgs =
      subject mon1State
        { baseArgs with
            status := some Status.Critical
          , service := some "ssh"
          , output := some "CRITICAL - host unreachable" } :=
  subject_host_independent mon1State baseArgs _ rfl rfl rfl rfl

end NagiosNotify
